import Mathlib

/-!
Verification of the batch job queue and retry-scheduling subsystem
(`QueueManager`, the `batch_jobs` / `queue_items` data model, the
`update_batch_job_progress` aggregation function and the counting
semaphore) of the clip-caption repository.

The TypeScript class `QueueManager` and its `Semaphore` live in the
queue-manager service module; the SQL functions live in the migration
file `20250908154303_71d8d6bd-9dee-4b9e-8595-e2afeece62c3.sql`.
Timestamps are modelled as a logical clock (`Nat`), JavaScript `Date`
values as the current clock value, and SQL / JS nullable fields as
`Option`.  JavaScript falsiness of `0` and of the empty string in the
`x || y` idiom is modelled explicitly wherever the source uses it.
-/

namespace ClipCaption

/-- Statuses used both by `queue_items` (pending, processing, completed,
failed, cancelled, retrying) and by `batch_jobs` (all but retrying),
as constrained by the CHECK clauses in the migration. -/
inductive Status where
  | pending
  | processing
  | completed
  | failed
  | cancelled
  | retrying
deriving DecidableEq, Repr

/-- A row of the `queue_items` table, restricted to the columns the
queue manager reads or writes.  `created_at` and the clock are logical
times; `priority` is an SQL INTEGER. -/
structure QueueItem where
  id : Nat
  batch_job_id : Nat
  priority : Int
  status : Status
  retry_count : Nat
  max_retries : Nat
  error_message : Option String
  progress : Nat
  started_at : Option Nat
  completed_at : Option Nat
  created_at : Nat
deriving DecidableEq, Repr

/-- A row of the `batch_jobs` table, restricted to the columns the
queue manager reads or writes. -/
structure BatchJob where
  id : Nat
  job_type : String
  total_items : Nat
  completed_items : Nat
  failed_items : Nat
  status : Status
  started_at : Option Nat
  completed_at : Option Nat
deriving DecidableEq, Repr

/-- `QueueManagerOptions` from the queue-manager module; the
constructor defaults are concurrency 3, retryDelay 1000, maxRetries 3. -/
structure QueueManagerOptions where
  concurrency : Nat
  retryDelay : Nat
  maxRetries : Nat
deriving DecidableEq, Repr

/-- The option record produced by `new QueueManager()` with no
arguments: `{ concurrency: 3, retryDelay: 1000, maxRetries: 3 }`. -/
def defaultOptions : QueueManagerOptions :=
  { concurrency := 3, retryDelay := 1000, maxRetries := 3 }

/-- JS `a || b` on a string: `a` is falsy exactly when it is empty. -/
def orDefaultStr (a b : String) : String :=
  if a = "" then b else a

/-- JS `a || b` on a number: `a` is falsy exactly when it is `0`
(our embedding uses `Nat` for the non-negative integer columns). -/
def orDefaultNat (a b : Nat) : Nat :=
  if a = 0 then b else a

/-- Outcome of `QueueManager.handleProcessingError` on one item: the
fields it writes to the item's row, plus the scheduled retry delay
(`none` when the item is marked permanently failed). -/
structure ErrorOutcome where
  newStatus : Status
  newRetryCount : Nat
  errorMessage : String
  recordsCompletedAt : Bool
  retryDelay : Option Nat
deriving DecidableEq, Repr

/-- `QueueManager.handleProcessingError(item, error)`: computes
`retryCount = (item.retry_count || 0) + 1` and
`maxRetries = item.max_retries || this.options.maxRetries`; if
`retryCount <= maxRetries` the item becomes `retrying` with the
incremented count and the error message, and a retry is scheduled after
`this.options.retryDelay * 2 ** (retryCount - 1)`; otherwise the item
becomes `failed` with an error message and `completed_at` recorded.
`errMsg` is the thrown error's `.message`; `error.message || '...'`
falls back to the given literal when the message is empty. -/
def handleProcessingError (opts : QueueManagerOptions) (item : QueueItem)
    (errMsg : String) : ErrorOutcome :=
  let retryCount := item.retry_count + 1
  let maxRetries := orDefaultNat item.max_retries opts.maxRetries
  if retryCount ≤ maxRetries then
    { newStatus := Status.retrying
      newRetryCount := retryCount
      errorMessage := orDefaultStr errMsg ("Unknown error")
      recordsCompletedAt := false
      retryDelay := some (opts.retryDelay * 2 ^ (retryCount - 1)) }
  else
    { newStatus := Status.failed
      newRetryCount := item.retry_count
      errorMessage := orDefaultStr errMsg ("Maximum retries exceeded")
      recordsCompletedAt := true
      retryDelay := none }

/-- An item is eligible for dispatch when its status is in the set
`{pending, retrying}` used by `startProcessing`'s queue query. -/
def eligibleStatus (s : Status) : Bool :=
  decide (s = Status.pending) || decide (s = Status.retrying)

/-- The dispatch order of `startProcessing`'s queue query:
`priority` descending, then `created_at` ascending. -/
def dispatchLE (a b : QueueItem) : Prop :=
  b.priority < a.priority ∨ (a.priority = b.priority ∧ a.created_at ≤ b.created_at)

instance : DecidableRel dispatchLE := fun _ _ =>
  inferInstanceAs (Decidable (_ ∨ _))

instance : IsTotal QueueItem dispatchLE := by
  constructor
  intro a b
  unfold dispatchLE
  omega

instance : IsTrans QueueItem dispatchLE := by
  constructor
  intro a b c hab hbc
  unfold dispatchLE at *
  omega

/-- The item list produced by `startProcessing`'s queue query:
rows of the given batch with status in `{pending, retrying}`, sorted by
priority descending then creation time ascending. -/
def selectEligible (batchJobId : Nat) (items : List QueueItem) : List QueueItem :=
  List.insertionSort dispatchLE
    (items.filter (fun i => decide (i.batch_job_id = batchJobId) && eligibleStatus i.status))

/-- The three counts computed by `update_batch_job_progress` over the
queue items of one batch: `COUNT(*)`, `COUNT(*) FILTER (WHERE status =
'completed')`, `COUNT(*) FILTER (WHERE status = 'failed')`. -/
def batchCounts (batchJobId : Nat) (items : List QueueItem) : Nat × Nat × Nat :=
  let its := items.filter (fun i => decide (i.batch_job_id = batchJobId))
  (its.length,
   its.countP (fun i => decide (i.status = Status.completed)),
   its.countP (fun i => decide (i.status = Status.failed)))

/-- The status decision of `update_batch_job_progress`: completed /
failed when all items are settled and there is at least one, processing
when some item has settled, pending otherwise. -/
def aggregateStatus (total completed failed : Nat) : Status :=
  if completed + failed = total ∧ 0 < total then
    if failed = 0 then Status.completed else Status.failed
  else if 0 < completed ∨ 0 < failed then Status.processing
  else Status.pending

/-- The UPDATE of `update_batch_job_progress` on the batch-job row:
counters replaced by the computed counts; status replaced by the
computed status; `started_at` kept unless it was NULL and the new
status is `processing`; `completed_at` set to `now()` whenever the new
status is `completed` or `failed`, kept otherwise. -/
def aggregateJobUpdate (j : BatchJob) (total completed failed : Nat)
    (now : Nat) : BatchJob :=
  let st := aggregateStatus total completed failed
  { j with
    total_items := total
    completed_items := completed
    failed_items := failed
    status := st
    started_at :=
      if j.started_at = none ∧ st = Status.processing then some now
      else j.started_at
    completed_at :=
      if st = Status.completed ∨ st = Status.failed then some now
      else j.completed_at }

/-- The two tables the queue manager reads and writes, with a logical
clock standing for `now()` / `new Date()`. -/
structure Store where
  batchJobs : List BatchJob
  queueItems : List QueueItem
deriving DecidableEq, Repr

/-- The in-memory state of a `QueueManager` instance: the
`this.processing` duplicate-dispatch guard, and the retries scheduled
by `setTimeout` (item id, delay in ms, retry count passed to the
re-invocation) which are pending and not executed by the current call. -/
structure ManagerState where
  processingSet : List Nat
  pendingRetries : List (Nat × Nat × Nat)
deriving DecidableEq, Repr

/-- `SELECT ... FROM batch_jobs WHERE id = _ .single()`: the row, if any. -/
def findJob (s : Store) (id : Nat) : Option BatchJob :=
  s.batchJobs.find? (fun j => decide (j.id = id))

/-- `UPDATE batch_jobs SET ... WHERE id = _`: applies `f` to every row
whose id matches (no row matching means no change). -/
def updateJob (s : Store) (id : Nat) (f : BatchJob → BatchJob) : Store :=
  { s with batchJobs := s.batchJobs.map (fun j => if j.id = id then f j else j) }

/-- `UPDATE queue_items SET ... WHERE id = _`. -/
def updateItem (s : Store) (id : Nat) (f : QueueItem → QueueItem) : Store :=
  { s with queueItems := s.queueItems.map (fun i => if i.id = id then f i else i) }

/-- The job-type string `processItem` resolves for an item:
`batchJob.data?.job_type || 'default'` — the literal `'default'` when
the batch-job lookup returns no row (`.single()` errors, `data` is
null) or the stored `job_type` is falsy (empty). -/
def resolveJobType (s : Store) (item : QueueItem) : String :=
  match findJob s item.batch_job_id with
  | none => "default"
  | some j => orDefaultStr j.job_type ("default")

/-- A registered processor, abstracted to the outcome of invoking it on
an item: success, or failure with the thrown error's message. -/
inductive ProcOutcome where
  | success
  | failure (msg : String)
deriving DecidableEq, Repr

/-- The `this.processors` registry: job-type keys paired with processor
behaviour. -/
def Registry := List (String × (QueueItem → ProcOutcome))

/-- `this.processors.get(jobType)`. -/
def lookupProc (procs : Registry) (jobType : String) :
    Option (QueueItem → ProcOutcome) :=
  (procs.find? (fun p => decide (p.1 = jobType))).map (fun p => p.2)

/-- The store and manager-state effect of
`QueueManager.handleProcessingError(item, error)`: writes the
`ErrorOutcome` fields to the item's row; a scheduled retry is appended
to the pending-retry list (the `setTimeout` callback itself does not
run within the current call). -/
def handleProcessingErrorStore (opts : QueueManagerOptions) (item : QueueItem)
    (errMsg : String) (ms : ManagerState) (s : Store) (now : Nat) :
    ManagerState × Store :=
  let o := handleProcessingError opts item errMsg
  match o.retryDelay with
  | some d =>
      ({ ms with pendingRetries := ms.pendingRetries ++ [(item.id, d, o.newRetryCount)] },
       updateItem s item.id (fun it =>
         { it with
           status := o.newStatus
           retry_count := o.newRetryCount
           error_message := some o.errorMessage }))
  | none =>
      (ms,
       updateItem s item.id (fun it =>
         { it with
           status := o.newStatus
           error_message := some o.errorMessage
           completed_at := some now }))

/-- The try-block of `processItem` after the row has been marked
`processing` (store `s1`, guard already holding the id in `ms1`):
resolve the job type, look up the processor (`undefined` raises
`No processor registered for job type: <jobType>`), run it; success
marks the row `completed` with progress 100 and a completion time;
any raised error is caught and routed to `handleProcessingError`. -/
def processItemDispatch (procs : Registry) (opts : QueueManagerOptions)
    (ms1 : ManagerState) (s1 : Store) (now : Nat) (item : QueueItem) :
    ManagerState × Store :=
  match lookupProc procs (resolveJobType s1 item) with
  | none =>
      handleProcessingErrorStore opts item
        ("No processor registered for job type: " ++ resolveJobType s1 item)
        ms1 s1 now
  | some p =>
      match p item with
      | ProcOutcome.success =>
          (ms1,
           updateItem s1 item.id (fun it =>
             { it with
               status := Status.completed
               progress := 100
               completed_at := some now }))
      | ProcOutcome.failure msg =>
          handleProcessingErrorStore opts item msg ms1 s1 now

/-- The `finally` clause of `processItem`: drop the item id from the
`this.processing` duplicate-dispatch guard. -/
def processItemFinally (p : ManagerState × Store) (itemId : Nat) :
    ManagerState × Store :=
  ({ p.1 with processingSet := p.1.processingSet.erase itemId }, p.2)

/-- `QueueManager.processItem(item)`, sequentialized: skip when the
duplicate-dispatch guard holds the id; otherwise insert the id into the
guard, mark the row `processing` with a start time, run the dispatch
body (`processItemDispatch`), and finally drop the id from the guard. -/
def processItem (procs : Registry) (opts : QueueManagerOptions)
    (ms : ManagerState) (s : Store) (now : Nat) (item : QueueItem) :
    ManagerState × Store :=
  if item.id ∈ ms.processingSet then (ms, s)
  else
    processItemFinally
      (processItemDispatch procs opts
        { ms with processingSet := item.id :: ms.processingSet }
        (updateItem s item.id (fun it =>
          { it with status := Status.processing, started_at := some now }))
        now item)
      item.id

/-- The SQL function `update_batch_job_progress(_batch_job_id)`:
recount the batch's queue items and rewrite the batch-job row. -/
def applyAggregate (s : Store) (batchJobId : Nat) (now : Nat) : Store :=
  let c := batchCounts batchJobId s.queueItems
  updateJob s batchJobId (fun j => aggregateJobUpdate j c.1 c.2.1 c.2.2 now)

/-- `QueueManager.startProcessing(batchJobId)`, sequentialized: the
concurrent dispatch under the semaphore is replaced by processing the
eligible items in selection order (the semaphore model below covers the
concurrency claim).  A missing batch job throws `Batch job not found`,
which the top-level catch handles by updating the (absent) row to
`failed` — the call still resolves, so the result is `Except.ok`.
With no eligible items the call returns before any write.  Otherwise
the batch job is set to `processing` with `started_at` overwritten
unconditionally, the items are processed, and
`update_batch_job_progress` runs. -/
def startProcessing (procs : Registry) (opts : QueueManagerOptions)
    (ms : ManagerState) (s : Store) (now : Nat) (batchJobId : Nat) :
    ManagerState × Store × Except String Unit :=
  match findJob s batchJobId with
  | none =>
      (ms,
       updateJob s batchJobId (fun j =>
         { j with status := Status.failed, completed_at := some now }),
       Except.ok ())
  | some _ =>
      let eligible := selectEligible batchJobId s.queueItems
      if eligible.isEmpty then (ms, s, Except.ok ())
      else
        let s1 := updateJob s batchJobId (fun j =>
          { j with status := Status.processing, started_at := some now })
        let p := eligible.foldl
          (fun (acc : ManagerState × Store) item =>
            processItem procs opts acc.1 acc.2 now item) (ms, s1)
        (p.1, applyAggregate p.2 batchJobId now, Except.ok ())

/-!
Operational model of the concurrency limiter.  The `Semaphore` class
holds a permit count and a FIFO wait queue; `startProcessing` wraps
every dispatched item in `acquire().then(... processItem ... release)`.
A state tracks the permits, the queue of item indices whose `acquire`
is suspended, and the status of each item (the item list is indexed by
position).  An atomic step either reflects the semaphore-controlled
lifecycle (`SemStep`) or the `setTimeout` retry path of
`handleProcessingError`, which re-invokes `processItem` directly and
never touches the semaphore (`QStep.retryFire`).
-/

/-- Semaphore-run state: remaining permits, the FIFO wait queue of item
indices, and each item's status. -/
structure SemState where
  permits : Nat
  waitQueue : List Nat
  items : List Status
deriving DecidableEq, Repr

/-- The number of items currently in the `processing` state. -/
def processingCount (l : List Status) : Nat :=
  l.countP (fun st => decide (st = Status.processing))

/-- Steps of the semaphore-controlled item lifecycle in one batch run:

* `acquire`:   `acquire()` finds `permits > 0`, decrements, and the
  item's `processItem` sets it `processing`;
* `enqueue`:   `acquire()` finds `permits = 0` and pushes the resolver
  onto `waitQueue`;
* `finishNoWaiter`: a processing item settles (`completed` on success,
  `retrying` or `failed` via `handleProcessingError`); the `finally`
  release increments `permits`, the wait queue being empty;
* `finishWaiter`: as above, but the release hands the permit to the
  queue head, whose item enters `processing` (net permit count
  unchanged: `release` increments and the shifted waiter decrements). -/
inductive SemStep : SemState → SemState → Prop where
  | acquire (s t : SemState) (i p : Nat) (st : Status)
      (hp : s.permits = p + 1)
      (hi : s.items[i]? = some st)
      (hst : st = Status.pending ∨ st = Status.retrying)
      (ht : t = ⟨p, s.waitQueue, s.items.set i Status.processing⟩) :
      SemStep s t
  | enqueue (s t : SemState) (i : Nat) (st : Status)
      (hp : s.permits = 0)
      (hi : s.items[i]? = some st)
      (hst : st = Status.pending ∨ st = Status.retrying)
      (ht : t = ⟨0, s.waitQueue ++ [i], s.items⟩) :
      SemStep s t
  | finishNoWaiter (s t : SemState) (i : Nat) (st' : Status)
      (hq : s.waitQueue = [])
      (hi : s.items[i]? = some Status.processing)
      (hst : st' = Status.completed ∨ st' = Status.retrying ∨ st' = Status.failed)
      (ht : t = ⟨s.permits + 1, [], s.items.set i st'⟩) :
      SemStep s t
  | finishWaiter (s t : SemState) (i j : Nat) (rest : List Nat) (st' stj : Status)
      (hq : s.waitQueue = j :: rest)
      (hi : s.items[i]? = some Status.processing)
      (hj : s.items[j]? = some stj)
      (hstj : stj = Status.pending ∨ stj = Status.retrying)
      (hst : st' = Status.completed ∨ st' = Status.retrying ∨ st' = Status.failed)
      (ht : t = ⟨s.permits, rest, (s.items.set i st').set j Status.processing⟩) :
      SemStep s t

/-- Full step relation of a batch run: the semaphore-controlled steps,
plus the retry path — `setTimeout(() => this.processItem(...))` from
`handleProcessingError` re-enters `processing` without acquiring a
permit. -/
inductive QStep : SemState → SemState → Prop where
  | sem (s t : SemState) (h : SemStep s t) : QStep s t
  | retryFire (s t : SemState) (i : Nat)
      (hi : s.items[i]? = some Status.retrying)
      (ht : t = ⟨s.permits, s.waitQueue, s.items.set i Status.processing⟩) :
      QStep s t

/-- Auxiliary semaphore invariant: available permits plus items in
`processing` never exceed the configured concurrency. -/
def SemInv (c : Nat) (s : SemState) : Prop :=
  s.permits + processingCount s.items ≤ c

theorem countP_set_eq {α : Type} (p : α → Bool) (l : List α) (i : Nat) (a b : α)
    (h : l[i]? = some a) :
    (l.set i b).countP p + (if p a then 1 else 0) =
      l.countP p + (if p b then 1 else 0) := by
  induction l generalizing i with
  | nil => simp at h
  | cons x xs ih =>
    cases i with
    | zero =>
      simp only [List.getElem?_cons_zero, Option.some.injEq] at h
      subst h
      simp only [List.set_cons_zero, List.countP_cons]
      omega
    | succ n =>
      simp only [List.getElem?_cons_succ] at h
      have h2 := ih n h
      simp only [List.set_cons_succ, List.countP_cons]
      omega

theorem semStep_preserves_inv {c : Nat} {s t : SemState}
    (h : SemStep s t) (hs : SemInv c s) : SemInv c t := by
  unfold SemInv processingCount at hs ⊢
  cases h with
  | acquire i p st hp hi hst ht =>
    subst ht
    have hc := countP_set_eq (fun st => decide (st = Status.processing))
      s.items i st Status.processing hi
    rcases hst with h1 | h1 <;> subst h1 <;> simp at hc <;> simp <;> omega
  | enqueue i st hp hi hst ht =>
    subst ht
    simp
    omega
  | finishNoWaiter i st' hq hi hst ht =>
    subst ht
    have hc := countP_set_eq (fun st => decide (st = Status.processing))
      s.items i Status.processing st' hi
    rcases hst with h1 | h1 | h1 <;> subst h1 <;> simp at hc <;> simp <;> omega
  | finishWaiter i j rest st' stj hq hi hj hstj hst ht =>
    subst ht
    have hne : i ≠ j := by
      intro e
      subst e
      rw [hi] at hj
      rcases hstj with h1 | h1 <;> rw [h1] at hj <;> simp at hj
    have hj2 : (s.items.set i st')[j]? = some stj := by
      rw [List.getElem?_set_ne hne]
      exact hj
    have hc1 := countP_set_eq (fun st => decide (st = Status.processing))
      s.items i Status.processing st' hi
    have hc2 := countP_set_eq (fun st => decide (st = Status.processing))
      (s.items.set i st') j stj Status.processing hj2
    rcases hst with h1 | h1 | h1 <;> subst h1 <;>
      rcases hstj with h2 | h2 <;> subst h2 <;>
      simp at hc1 hc2 <;> simp <;> omega

theorem semReach_preserves_inv {c : Nat} {s t : SemState}
    (h : Relation.ReflTransGen SemStep s t) (hs : SemInv c s) : SemInv c t := by
  induction h with
  | refl => exact hs
  | tail _ hstep ih => exact semStep_preserves_inv hstep ih

/-- Claim C1 (amended): within one batch run, among the processing
attempts dispatched by `startProcessing` through the semaphore — the
semaphore-controlled lifecycle steps `SemStep` — the number of items
simultaneously in `processing` never exceeds the configured
concurrency: every state reachable from an initial state with all
permits free, an empty wait queue and no item in `processing` keeps at
most `concurrency` items in `processing`.  (The retry attempts that
`handleProcessingError` schedules via `setTimeout` call `processItem`
directly without acquiring a permit and are NOT subject to the bound;
see the counterexample.) -/
theorem semaphore_bounds_processing (c : Nat) (items0 : List Status) (s : SemState)
    (h0 : ∀ st ∈ items0, st ≠ Status.processing)
    (hr : Relation.ReflTransGen SemStep ⟨c, [], items0⟩ s) :
    processingCount s.items ≤ c := by
  have h1 : processingCount items0 = 0 := by
    unfold processingCount
    rw [List.countP_eq_zero]
    intro a ha
    simp [h0 a ha]
  have h2 : SemInv c ⟨c, [], items0⟩ := by
    unfold SemInv
    simp [h1]
  have h3 := semReach_preserves_inv hr h2
  unfold SemInv at h3
  omega

/-- Witness for `semaphore_bounds_processing`: with concurrency 2 and
two initially pending items, after one semaphore acquisition at most 2
items are in `processing`. -/
theorem semaphore_bounds_processing_witness :
    processingCount [Status.processing, Status.pending] ≤ 2 :=
  semaphore_bounds_processing 2 [Status.pending, Status.pending]
    ⟨1, [], [Status.processing, Status.pending]⟩
    (by decide)
    (Relation.ReflTransGen.single
      (SemStep.acquire _ _ 0 1 Status.pending rfl rfl (Or.inl rfl) (by decide)))

/-- Claim C1 (counterexample): with concurrency 2 and 5 items, a run of
the full step relation — semaphore-controlled dispatch plus the
`setTimeout` retry path of `handleProcessingError`, which re-invokes
`processItem` without acquiring a permit — reaches a state with 3 items
simultaneously in `processing`: items 0 and 1 acquire the two permits,
items 2–4 queue, item 0 fails and its release hands the permit to item
2, and then item 0's scheduled retry re-enters `processing` directly. -/
theorem semaphore_bound_violated_by_retry :
    Relation.ReflTransGen QStep
        ⟨2, [], [Status.pending, Status.pending, Status.pending,
                 Status.pending, Status.pending]⟩
        ⟨0, [3, 4], [Status.processing, Status.processing, Status.processing,
                     Status.pending, Status.pending]⟩
    ∧ processingCount [Status.processing, Status.processing, Status.processing,
                       Status.pending, Status.pending] = 3
    ∧ 2 < 3 := by
  refine ⟨?_, by decide, by decide⟩
  refine Relation.ReflTransGen.head
    (QStep.sem _ _ (SemStep.acquire _
      ⟨1, [], [Status.processing, Status.pending, Status.pending,
               Status.pending, Status.pending]⟩
      0 1 Status.pending rfl rfl (Or.inl rfl) (by decide))) ?_
  refine Relation.ReflTransGen.head
    (QStep.sem _ _ (SemStep.acquire _
      ⟨0, [], [Status.processing, Status.processing, Status.pending,
               Status.pending, Status.pending]⟩
      1 0 Status.pending rfl rfl (Or.inl rfl) (by decide))) ?_
  refine Relation.ReflTransGen.head
    (QStep.sem _ _ (SemStep.enqueue _
      ⟨0, [2], [Status.processing, Status.processing, Status.pending,
                Status.pending, Status.pending]⟩
      2 Status.pending rfl rfl (Or.inl rfl) (by decide))) ?_
  refine Relation.ReflTransGen.head
    (QStep.sem _ _ (SemStep.enqueue _
      ⟨0, [2, 3], [Status.processing, Status.processing, Status.pending,
                   Status.pending, Status.pending]⟩
      3 Status.pending rfl rfl (Or.inl rfl) (by decide))) ?_
  refine Relation.ReflTransGen.head
    (QStep.sem _ _ (SemStep.enqueue _
      ⟨0, [2, 3, 4], [Status.processing, Status.processing, Status.pending,
                      Status.pending, Status.pending]⟩
      4 Status.pending rfl rfl (Or.inl rfl) (by decide))) ?_
  refine Relation.ReflTransGen.head
    (QStep.sem _ _ (SemStep.finishWaiter _
      ⟨0, [3, 4], [Status.retrying, Status.processing, Status.processing,
                   Status.pending, Status.pending]⟩
      0 2 [3, 4] Status.retrying Status.pending rfl rfl rfl (Or.inl rfl)
      (Or.inr (Or.inl rfl)) (by decide))) ?_
  exact Relation.ReflTransGen.single
    (QStep.retryFire _ _ 0 rfl (by decide))

/-- A queue-item row with the column defaults of the migration
(`priority 0`, `status 'pending'`, `retry_count 0`, `max_retries 3`,
`progress 0`), used to build concrete test rows. -/
def sampleItem : QueueItem :=
  { id := 11
    batch_job_id := 1
    priority := 0
    status := Status.pending
    retry_count := 0
    max_retries := 3
    error_message := none
    progress := 0
    started_at := none
    completed_at := none
    created_at := 0 }

/-- Claim C2 (counterexample): a failing item with `retry_count = 0`
and `max_retries = 0` has `retry_count + 1 > max_retries`, so by the
claim it should transition to `failed`; `handleProcessingError` instead
moves it to `retrying` with `retry_count 1`, because
`item.max_retries || this.options.maxRetries` treats the stored `0` as
absent and substitutes the default cap 3. -/
theorem retry_cap_zero_still_retries :
    (handleProcessingError defaultOptions { sampleItem with max_retries := 0 }
        ("boom")).newStatus = Status.retrying
    ∧ ({ sampleItem with max_retries := 0 } : QueueItem).retry_count + 1 >
        ({ sampleItem with max_retries := 0 } : QueueItem).max_retries := by
  constructor
  · rfl
  · decide

/-- Claim C2 (amended): when a processor invocation fails, with the
effective cap `maxRetries = item.max_retries || options.maxRetries`
(the stored cap, or the manager default when the stored cap is 0): if
`retry_count + 1 ≤ maxRetries` the item transitions to `retrying` with
`retry_count` incremented by one, the error message recorded, and a
re-entry into `processing` scheduled after
`retryDelay * 2 ^ (retry_count)` = `base_delay * 2 ^ (newCount - 1)`
— so with cap 3 and base 1000 the successive delays are 1000, 2000,
4000 — and otherwise the item transitions to `failed` with an error
message and a completion timestamp recorded. -/
theorem retry_policy (opts : QueueManagerOptions) (item : QueueItem) (msg : String) :
    (item.retry_count + 1 ≤ orDefaultNat item.max_retries opts.maxRetries →
      handleProcessingError opts item msg =
        { newStatus := Status.retrying
          newRetryCount := item.retry_count + 1
          errorMessage := orDefaultStr msg ("Unknown error")
          recordsCompletedAt := false
          retryDelay := some (opts.retryDelay * 2 ^ item.retry_count) })
    ∧ (orDefaultNat item.max_retries opts.maxRetries < item.retry_count + 1 →
      handleProcessingError opts item msg =
        { newStatus := Status.failed
          newRetryCount := item.retry_count
          errorMessage := orDefaultStr msg ("Maximum retries exceeded")
          recordsCompletedAt := true
          retryDelay := none })
    ∧ (handleProcessingError defaultOptions sampleItem ("e")).retryDelay = some 1000
    ∧ (handleProcessingError defaultOptions { sampleItem with retry_count := 1 }
        ("e")).retryDelay = some 2000
    ∧ (handleProcessingError defaultOptions { sampleItem with retry_count := 2 }
        ("e")).retryDelay = some 4000
    ∧ (handleProcessingError defaultOptions { sampleItem with retry_count := 3 }
        ("e")).newStatus = Status.failed := by
  refine ⟨?_, ?_, rfl, rfl, rfl, rfl⟩
  · intro h
    unfold handleProcessingError
    rw [if_pos h]
    simp
  · intro h
    unfold handleProcessingError
    rw [if_neg (by omega)]

/-- Witness for `retry_policy`: the default-options manager moves a
first failure of an item with cap 3 to `retrying` with count 1 and a
1000 ms delay. -/
theorem retry_policy_witness :
    handleProcessingError defaultOptions sampleItem ("boom") =
      { newStatus := Status.retrying
        newRetryCount := 1
        errorMessage := "boom"
        recordsCompletedAt := false
        retryDelay := some 1000 } :=
  (retry_policy defaultOptions sampleItem ("boom")).1 (by decide)

/-- Claim C3: `startProcessing` selects exactly the queue items of the
batch whose status is `pending` or `retrying`, ordered by priority
descending and, among equal priorities, by creation time ascending; for
items with priorities [5,1,5] created in order A,B,C the eligible order
is [A,C,B]. -/
theorem dispatch_selection_order (batchJobId : Nat) (items : List QueueItem) :
    List.Perm (selectEligible batchJobId items)
      (items.filter (fun i =>
        decide (i.batch_job_id = batchJobId) && eligibleStatus i.status))
    ∧ List.Sorted dispatchLE (selectEligible batchJobId items)
    ∧ selectEligible 1
        [{ sampleItem with id := 21, priority := 5, created_at := 0 },
         { sampleItem with id := 22, priority := 1, created_at := 1 },
         { sampleItem with id := 23, priority := 5, created_at := 2 }] =
        [{ sampleItem with id := 21, priority := 5, created_at := 0 },
         { sampleItem with id := 23, priority := 5, created_at := 2 },
         { sampleItem with id := 22, priority := 1, created_at := 1 }] := by
  refine ⟨List.perm_insertionSort dispatchLE _, List.sorted_insertionSort dispatchLE _, ?_⟩
  decide

/-- Claim C4: `update_batch_job_progress` computes total as the count
of the batch's queue items, completed and failed as the counts with the
respective statuses, and sets the batch status to `completed` when all
items settled with no failure, `failed` when all settled with some
failure, `processing` when some item settled but not all, and `pending`
otherwise. -/
theorem status_aggregation (batchJobId : Nat) (items : List QueueItem)
    (total completed failed : Nat) :
    batchCounts batchJobId items =
      ((items.filter (fun i => decide (i.batch_job_id = batchJobId))).length,
       (items.filter (fun i => decide (i.batch_job_id = batchJobId))).countP
         (fun i => decide (i.status = Status.completed)),
       (items.filter (fun i => decide (i.batch_job_id = batchJobId))).countP
         (fun i => decide (i.status = Status.failed)))
    ∧ (completed + failed = total → 0 < total → failed = 0 →
        aggregateStatus total completed failed = Status.completed)
    ∧ (completed + failed = total → 0 < total → 0 < failed →
        aggregateStatus total completed failed = Status.failed)
    ∧ (¬(completed + failed = total ∧ 0 < total) → 0 < completed ∨ 0 < failed →
        aggregateStatus total completed failed = Status.processing)
    ∧ (completed = 0 → failed = 0 →
        aggregateStatus total completed failed = Status.pending) := by
  refine ⟨rfl, ?_, ?_, ?_, ?_⟩
  · intro h1 h2 h3
    unfold aggregateStatus
    rw [if_pos ⟨h1, h2⟩, if_pos h3]
  · intro h1 h2 h3
    unfold aggregateStatus
    rw [if_pos ⟨h1, h2⟩, if_neg (by omega)]
  · intro h1 h2
    unfold aggregateStatus
    rw [if_neg h1, if_pos h2]
  · intro h1 h2
    subst h1
    subst h2
    unfold aggregateStatus
    rw [if_neg (by omega), if_neg (by omega)]

/-- Witness for `status_aggregation`: a batch of 3 items with 2
completed and 1 failed, all settled, aggregates to `failed`. -/
theorem status_aggregation_witness :
    aggregateStatus 3 2 1 = Status.failed :=
  (status_aggregation 0 [] 3 2 1).2.2.1 (by decide) (by decide) (by decide)

/-- The batch-job row created by `createBatchJob` in the async-operation
hook: the INSERT supplies `total_items = videoFiles.length` and the
job type; `completed_items`, `failed_items`, `status`, `started_at`
and `completed_at` take the table defaults 0, 0, `'pending'`, NULL,
NULL. -/
def insertBatchJob (id : Nat) (jobType : String) (nItems : Nat) : BatchJob :=
  { id := id
    job_type := jobType
    total_items := nItems
    completed_items := 0
    failed_items := 0
    status := Status.pending
    started_at := none
    completed_at := none }

/-- The batch-job counter invariant of the spec:
`completed_items + failed_items ≤ total_items`. -/
def countersInv (j : BatchJob) : Prop :=
  j.completed_items + j.failed_items ≤ j.total_items

/-- A write to the batch-job counters after initialization: the only
counter writer in the repository is `update_batch_job_progress`, which
recounts a current queue-item list (at logical time `now`). -/
inductive CounterWrite where
  | aggregate (items : List QueueItem) (now : Nat)

/-- Applying one counter write to a batch-job row: recount and rewrite
as `update_batch_job_progress` does. -/
def applyCounterWrite (id : Nat) (j : BatchJob) : CounterWrite → BatchJob
  | CounterWrite.aggregate items now =>
      aggregateJobUpdate j (batchCounts id items).1 (batchCounts id items).2.1
        (batchCounts id items).2.2 now

theorem countP_disjoint_le {α : Type} (p q : α → Bool)
    (h : ∀ a, ¬(p a = true ∧ q a = true)) (l : List α) :
    l.countP p + l.countP q ≤ l.length := by
  induction l with
  | nil => simp
  | cons x xs ih =>
    simp only [List.countP_cons, List.length_cons]
    by_cases hp : p x = true
    · have hq : ¬q x = true := fun hq => h x ⟨hp, hq⟩
      simp [hp, hq]
      omega
    · by_cases hq : q x = true <;> simp [hp, hq] <;> omega

/-- Claim C5: for every batch job, `completed_items + failed_items ≤
total_items` holds at initialization and is preserved (indeed
re-established from disjoint status counts) by every write to these
counters — the creation INSERT and every `update_batch_job_progress`
run — hence at every observed point after initialization. -/
theorem counters_invariant (id : Nat) (jobType : String) (nItems : Nat)
    (j : BatchJob) (w : CounterWrite) (ws : List CounterWrite) :
    countersInv (insertBatchJob id jobType nItems)
    ∧ countersInv (applyCounterWrite id j w)
    ∧ countersInv (ws.foldl (applyCounterWrite id) (insertBatchJob id jobType nItems)) := by
  have hw : ∀ (j' : BatchJob) (w' : CounterWrite), countersInv (applyCounterWrite id j' w') := by
    intro j' w'
    cases w' with
    | aggregate items now =>
      unfold countersInv applyCounterWrite aggregateJobUpdate batchCounts
      simp only []
      exact countP_disjoint_le _ _
        (by intro a ha; rcases ha with ⟨h1, h2⟩; simp at h1 h2; rw [h1] at h2; cases h2) _
  refine ⟨by unfold countersInv insertBatchJob; simp, hw j w, ?_⟩
  have hfold : ∀ (l : List CounterWrite) (j0 : BatchJob), countersInv j0 →
      countersInv (l.foldl (applyCounterWrite id) j0) := by
    intro l
    induction l with
    | nil => intro j0 h0; exact h0
    | cons x xs ih => intro j0 _; exact ih _ (hw j0 x)
  exact hfold ws _ (by unfold countersInv insertBatchJob; simp)

/-- `handleProcessingErrorStore` only rewrites the item's row: the
`batch_jobs` table is untouched. -/
theorem handleProcessingErrorStore_batchJobs (opts : QueueManagerOptions)
    (item : QueueItem) (msg : String) (ms : ManagerState) (s : Store) (now : Nat) :
    (handleProcessingErrorStore opts item msg ms s now).2.batchJobs = s.batchJobs := by
  unfold handleProcessingErrorStore
  dsimp only
  split <;> rfl

/-- `processItemDispatch` only rewrites item rows: the `batch_jobs`
table is untouched. -/
theorem processItemDispatch_batchJobs (procs : Registry) (opts : QueueManagerOptions)
    (ms1 : ManagerState) (s1 : Store) (now : Nat) (item : QueueItem) :
    (processItemDispatch procs opts ms1 s1 now item).2.batchJobs = s1.batchJobs := by
  unfold processItemDispatch
  split
  · exact handleProcessingErrorStore_batchJobs _ _ _ _ _ _
  · split
    · rfl
    · exact handleProcessingErrorStore_batchJobs _ _ _ _ _ _

/-- `processItem` only rewrites item rows: the `batch_jobs` table is
untouched. -/
theorem processItem_batchJobs (procs : Registry) (opts : QueueManagerOptions)
    (ms : ManagerState) (s : Store) (now : Nat) (item : QueueItem) :
    (processItem procs opts ms s now item).2.batchJobs = s.batchJobs := by
  unfold processItem
  split
  · rfl
  · exact processItemDispatch_batchJobs _ _ _ _ _ _

/-- The dispatch loop of `startProcessing` only rewrites item rows. -/
theorem foldl_processItem_batchJobs (procs : Registry) (opts : QueueManagerOptions)
    (now : Nat) (items : List QueueItem) :
    ∀ p : ManagerState × Store,
      ((items.foldl (fun acc item => processItem procs opts acc.1 acc.2 now item)
        p).2).batchJobs = p.2.batchJobs := by
  induction items with
  | nil => intro p; rfl
  | cons x xs ih =>
    intro p
    simp only [List.foldl_cons]
    rw [ih (processItem procs opts p.1 p.2 now x)]
    exact processItem_batchJobs procs opts p.1 p.2 now x

theorem findJob_ext {s t : Store} (h : s.batchJobs = t.batchJobs) (id : Nat) :
    findJob s id = findJob t id := by
  unfold findJob
  rw [h]

theorem find?_id_map_update {l : List BatchJob} {id : Nat} {f : BatchJob → BatchJob}
    (hf : ∀ j, (f j).id = j.id) :
    (l.map (fun j => if j.id = id then f j else j)).find? (fun j => decide (j.id = id))
      = (l.find? (fun j => decide (j.id = id))).map f := by
  induction l with
  | nil => rfl
  | cons x xs ih =>
    by_cases hx : x.id = id
    · rw [List.map_cons, if_pos hx,
        List.find?_cons_of_pos _ (by simp [hf, hx]),
        List.find?_cons_of_pos _ (by simp [hx])]
      rfl
    · rw [List.map_cons, if_neg hx,
        List.find?_cons_of_neg _ (by simp [hx]),
        List.find?_cons_of_neg _ (by simp [hx])]
      exact ih

/-- Reading back a batch job after an id-preserving `updateJob`. -/
theorem findJob_updateJob (s : Store) (id : Nat) (f : BatchJob → BatchJob)
    (hf : ∀ j, (f j).id = j.id) :
    findJob (updateJob s id f) id = (findJob s id).map f :=
  find?_id_map_update hf

/-- `UPDATE ... WHERE id = _` on an id matching no row is a no-op. -/
theorem updateJob_eq_of_absent (s : Store) (id : Nat) (f : BatchJob → BatchJob)
    (h : findJob s id = none) : updateJob s id f = s := by
  unfold updateJob
  have h2 := List.find?_eq_none.mp h
  have h3 : s.batchJobs.map (fun j => if j.id = id then f j else j) = s.batchJobs := by
    conv_rhs => rw [← List.map_id s.batchJobs]
    apply List.map_congr_left
    intro j hj
    have h4 := h2 j hj
    simp at h4
    simp [h4]
  rw [h3]

/-- Claim C7 (counterexample): calling `startProcessing` on a store
with no batch jobs at all, with id 7, does NOT reject: the internal
`Batch job not found` error is caught by the top-level catch, the
attempted failure-marking UPDATE matches no row, and the call resolves
normally — the result is `Except.ok` and the store is unchanged. -/
theorem start_nonexistent_resolves :
    startProcessing [] defaultOptions ⟨[], []⟩ ⟨[], []⟩ 10 7
      = (⟨[], []⟩, ⟨[], []⟩, Except.ok ()) := by
  rfl

/-- Claim C7 (amended): calling `startProcessing` with an id whose
batch job does not exist throws `Batch job not found` internally; the
top-level catch handles it and attempts to mark the job `failed` — an
UPDATE matching no rows — so the call returns normally with the store
and manager state unchanged, no error surfaced to the caller, and no
retry. -/
theorem start_nonexistent_is_swallowed (procs : Registry)
    (opts : QueueManagerOptions) (ms : ManagerState) (s : Store)
    (now batchJobId : Nat) (h : findJob s batchJobId = none) :
    startProcessing procs opts ms s now batchJobId = (ms, s, Except.ok ()) := by
  unfold startProcessing
  rw [h, updateJob_eq_of_absent s batchJobId _ h]

/-- Witness for `start_nonexistent_is_swallowed`: a store holding only
batch job 3, queried for batch job 7. -/
theorem start_nonexistent_is_swallowed_witness :
    startProcessing [] defaultOptions ⟨[], []⟩
        ⟨[insertBatchJob 3 ("video_processing") 2], []⟩ 10 7
      = (⟨[], []⟩, ⟨[insertBatchJob 3 ("video_processing") 2], []⟩, Except.ok ()) :=
  start_nonexistent_is_swallowed [] defaultOptions ⟨[], []⟩
    ⟨[insertBatchJob 3 ("video_processing") 2], []⟩ 10 7 rfl

/-- Claim C9: calling `startProcessing` on an existing batch job that
has zero queue items in status `pending` or `retrying` is a no-op: it
returns `Except.ok` before performing any write, leaving the store and
the manager state unchanged. -/
theorem start_no_eligible_noop (procs : Registry) (opts : QueueManagerOptions)
    (ms : ManagerState) (s : Store) (now batchJobId : Nat) (job : BatchJob)
    (hj : findJob s batchJobId = some job)
    (he : s.queueItems.filter (fun i =>
      decide (i.batch_job_id = batchJobId) && eligibleStatus i.status) = []) :
    startProcessing procs opts ms s now batchJobId = (ms, s, Except.ok ()) := by
  have he2 : selectEligible batchJobId s.queueItems = [] := by
    unfold selectEligible
    rw [he]
    rfl
  unfold startProcessing
  rw [hj]
  dsimp only
  rw [he2]
  rfl

/-- Witness for `start_no_eligible_noop`: a store whose only queue item
of batch 1 is already `completed`. -/
theorem start_no_eligible_noop_witness :
    startProcessing [] defaultOptions ⟨[], []⟩
        ⟨[insertBatchJob 1 ("video_processing") 1],
         [{ sampleItem with status := Status.completed }]⟩ 5 1
      = (⟨[], []⟩,
         ⟨[insertBatchJob 1 ("video_processing") 1],
          [{ sampleItem with status := Status.completed }]⟩,
         Except.ok ()) :=
  start_no_eligible_noop [] defaultOptions ⟨[], []⟩ _ 5 1
    (insertBatchJob 1 ("video_processing") 1) rfl rfl

/-- Claim C6 (counterexample): a batch job of type `video_processing`
with two pending items, dispatched with an empty processor registry:
the `No processor registered` error is NOT surfaced (the call resolves
`ok`), dispatch is NOT aborted (both items are handled, each ending in
`retrying` with a scheduled retry), and the batch job ends `pending`
after aggregation — not `failed`. -/
theorem missing_processor_not_fatal :
    ((findJob (startProcessing [] defaultOptions ⟨[], []⟩
        ⟨[insertBatchJob 1 ("video_processing") 2],
         [sampleItem, { sampleItem with id := 12, created_at := 1 }]⟩
        10 1).2.1 1).map BatchJob.status = some Status.pending)
    ∧ ((startProcessing [] defaultOptions ⟨[], []⟩
        ⟨[insertBatchJob 1 ("video_processing") 2],
         [sampleItem, { sampleItem with id := 12, created_at := 1 }]⟩
        10 1).2.1.queueItems.map QueueItem.status
          = [Status.retrying, Status.retrying])
    ∧ ((startProcessing [] defaultOptions ⟨[], []⟩
        ⟨[insertBatchJob 1 ("video_processing") 2],
         [sampleItem, { sampleItem with id := 12, created_at := 1 }]⟩
        10 1).1.pendingRetries = [(11, 1000, 1), (12, 1000, 1)])
    ∧ ((startProcessing [] defaultOptions ⟨[], []⟩
        ⟨[insertBatchJob 1 ("video_processing") 2],
         [sampleItem, { sampleItem with id := 12, created_at := 1 }]⟩
        10 1).2.2 = Except.ok ()) := by
  refine ⟨rfl, rfl, rfl, rfl⟩

/-- Claim C6 (amended): when a dispatched item's job-type has no
registered processor, the `No processor registered for job type:`
error is thrown inside `processItem` and caught by its per-item catch:
the item is handled as an ordinary per-item processing failure through
`handleProcessingError` (entering `retrying`, or `failed` once retries
are exhausted), the `batch_jobs` table is untouched by the attempt, and
dispatch of the remaining items continues — the batch job is not marked
`failed` on account of the missing processor. -/
theorem missing_processor_is_per_item (procs : Registry)
    (opts : QueueManagerOptions) (ms : ManagerState) (s : Store)
    (now : Nat) (item : QueueItem)
    (hset : ¬item.id ∈ ms.processingSet)
    (hnone : lookupProc procs (resolveJobType s item) = none) :
    processItem procs opts ms s now item =
      processItemFinally
        (handleProcessingErrorStore opts item
          ("No processor registered for job type: " ++ resolveJobType s item)
          { ms with processingSet := item.id :: ms.processingSet }
          (updateItem s item.id (fun it =>
            { it with status := Status.processing, started_at := some now }))
          now)
        item.id
    ∧ (processItem procs opts ms s now item).2.batchJobs = s.batchJobs := by
  have hnone2 : lookupProc procs
      (resolveJobType (updateItem s item.id (fun it =>
        { it with status := Status.processing, started_at := some now })) item)
      = none := hnone
  refine ⟨?_, processItem_batchJobs procs opts ms s now item⟩
  unfold processItem
  rw [if_neg hset]
  unfold processItemDispatch
  rw [hnone2]
  rfl

/-- Witness for `missing_processor_is_per_item`: empty registry, one
pending item of a `video_processing` batch; the attempt routes through
`handleProcessingError` and leaves the `batch_jobs` table unchanged. -/
theorem missing_processor_is_per_item_witness :
    (processItem [] defaultOptions ⟨[], []⟩
        ⟨[insertBatchJob 1 ("video_processing") 1], [sampleItem]⟩ 10 sampleItem).2.batchJobs
      = [insertBatchJob 1 ("video_processing") 1] :=
  (missing_processor_is_per_item [] defaultOptions ⟨[], []⟩
    ⟨[insertBatchJob 1 ("video_processing") 1], [sampleItem]⟩ 10 sampleItem
    (by simp) rfl).2

/-- Claim C10: when the batch-job row for a dispatched item cannot be
read (the `.single()` lookup returns no row, so `batchJob.data` is
null), `processItem` resolves the processor key to the literal
`default` instead of failing with a job-not-found error: the item is
processed by a processor registered under `default` when one exists,
and otherwise the thrown `No processor registered for job type:
default` error is treated as an ordinary per-item processing failure. -/
theorem default_job_type_fallback (procs : Registry)
    (opts : QueueManagerOptions) (ms : ManagerState) (s : Store)
    (now : Nat) (item : QueueItem)
    (hset : ¬item.id ∈ ms.processingSet)
    (hjob : findJob s item.batch_job_id = none) :
    resolveJobType s item = "default"
    ∧ (∀ p, lookupProc procs ("default") = some p →
        processItem procs opts ms s now item =
          processItemFinally
            (match p item with
             | ProcOutcome.success =>
                 ({ ms with processingSet := item.id :: ms.processingSet },
                  updateItem
                    (updateItem s item.id (fun it =>
                      { it with status := Status.processing, started_at := some now }))
                    item.id
                    (fun it =>
                      { it with
                        status := Status.completed
                        progress := 100
                        completed_at := some now }))
             | ProcOutcome.failure msg =>
                 handleProcessingErrorStore opts item msg
                   { ms with processingSet := item.id :: ms.processingSet }
                   (updateItem s item.id (fun it =>
                     { it with status := Status.processing, started_at := some now }))
                   now)
            item.id)
    ∧ (lookupProc procs ("default") = none →
        processItem procs opts ms s now item =
          processItemFinally
            (handleProcessingErrorStore opts item
              ("No processor registered for job type: default")
              { ms with processingSet := item.id :: ms.processingSet }
              (updateItem s item.id (fun it =>
                { it with status := Status.processing, started_at := some now }))
              now)
            item.id) := by
  have hres : resolveJobType s item = "default" := by
    unfold resolveJobType
    rw [hjob]
  have hres2 : resolveJobType (updateItem s item.id (fun it =>
      { it with status := Status.processing, started_at := some now })) item
      = "default" := hres
  refine ⟨hres, ?_, ?_⟩
  · intro p hp
    unfold processItem
    rw [if_neg hset]
    unfold processItemDispatch
    rw [hres2, hp]
  · intro hp
    unfold processItem
    rw [if_neg hset]
    unfold processItemDispatch
    rw [hres2, hp]
    rfl

/-- Witness for `default_job_type_fallback`: an item whose
`batch_job_id` 99 matches no batch job resolves to the `default`
processor key. -/
theorem default_job_type_fallback_witness :
    resolveJobType ⟨[], []⟩ { sampleItem with batch_job_id := 99 } = "default" :=
  (default_job_type_fallback [] defaultOptions ⟨[], []⟩ ⟨[], []⟩ 0
    { sampleItem with batch_job_id := 99 } (by simp) rfl).1

/-- Reading back a batch job after an `update_batch_job_progress` run. -/
theorem findJob_applyAggregate (s : Store) (id now : Nat) :
    findJob (applyAggregate s id now) id =
      (findJob s id).map (fun j =>
        aggregateJobUpdate j (batchCounts id s.queueItems).1
          (batchCounts id s.queueItems).2.1 (batchCounts id s.queueItems).2.2 now) := by
  unfold applyAggregate
  exact findJob_updateJob s id
    (fun j => aggregateJobUpdate j (batchCounts id s.queueItems).1
      (batchCounts id s.queueItems).2.1 (batchCounts id s.queueItems).2.2 now)
    (fun _ => rfl)

/-- Reading back a batch job after `startProcessing`'s
mark-as-processing update. -/
theorem findJob_updateJob_processing (s : Store) (id now : Nat) :
    findJob (updateJob s id (fun j =>
        { j with status := Status.processing, started_at := some now })) id
      = (findJob s id).map (fun j =>
        { j with status := Status.processing, started_at := some now }) :=
  findJob_updateJob s id _ (fun _ => rfl)

/-- Claim C8 (counterexample): (a) a batch job whose `started_at` was
already set to 5 has it overwritten to 10 by a later `startProcessing`
call — the TypeScript update writes `started_at: new Date()`
unconditionally whenever eligible items exist; (b) a second
`update_batch_job_progress` run on a fully settled batch overwrites
`completed_at` (10, then 20) — the SQL CASE has no NULL guard for
`completed_at`. -/
theorem timestamps_overwritten :
    ((findJob (startProcessing [("video_processing", fun _ => ProcOutcome.success)]
        defaultOptions ⟨[], []⟩
        ⟨[{ insertBatchJob 1 ("video_processing") 1 with started_at := some 5 }],
         [sampleItem]⟩ 10 1).2.1 1).map BatchJob.started_at = some (some 10))
    ∧ ((findJob (applyAggregate
        ⟨[insertBatchJob 2 ("video_processing") 1],
         [{ sampleItem with batch_job_id := 2, status := Status.completed }]⟩
        2 10) 2).map BatchJob.completed_at = some (some 10))
    ∧ ((findJob (applyAggregate (applyAggregate
        ⟨[insertBatchJob 2 ("video_processing") 1],
         [{ sampleItem with batch_job_id := 2, status := Status.completed }]⟩
        2 10) 2 20) 2).map BatchJob.completed_at = some (some 20)) :=
  ⟨rfl, rfl, rfl⟩

/-- Claim C8 (amended): `update_batch_job_progress` sets `started_at`
only when it is NULL and the computed status is `processing` — so the
aggregation itself never overwrites a set start timestamp — and sets
`completed_at` to `now()` on every run whose computed status is
`completed` or `failed`, overwriting any earlier value, keeping it
otherwise; `startProcessing`, however, overwrites `started_at`
unconditionally on every invocation that finds eligible items. -/
theorem timestamp_policy (j : BatchJob) (total completed failed now : Nat) :
    (∀ t, j.started_at = some t →
      (aggregateJobUpdate j total completed failed now).started_at = some t)
    ∧ (j.started_at = none → aggregateStatus total completed failed = Status.processing →
      (aggregateJobUpdate j total completed failed now).started_at = some now)
    ∧ ((aggregateStatus total completed failed = Status.completed ∨
        aggregateStatus total completed failed = Status.failed) →
      (aggregateJobUpdate j total completed failed now).completed_at = some now)
    ∧ (¬(aggregateStatus total completed failed = Status.completed ∨
         aggregateStatus total completed failed = Status.failed) →
      (aggregateJobUpdate j total completed failed now).completed_at = j.completed_at)
    ∧ (∀ (procs : Registry) (opts : QueueManagerOptions) (ms : ManagerState)
        (s : Store) (batchJobId : Nat),
        findJob s batchJobId = some j →
        ¬(selectEligible batchJobId s.queueItems).isEmpty = true →
        (findJob (startProcessing procs opts ms s now batchJobId).2.1 batchJobId).map
          BatchJob.started_at = some (some now)) := by
  refine ⟨?_, ?_, ?_, ?_, ?_⟩
  · intro t ht
    unfold aggregateJobUpdate
    simp [ht]
  · intro h1 h2
    unfold aggregateJobUpdate
    simp [h1, h2]
  · intro h
    unfold aggregateJobUpdate
    dsimp only
    rw [if_pos h]
  · intro h
    unfold aggregateJobUpdate
    dsimp only
    rw [if_neg h]
  · intro procs opts ms s batchJobId hj hne
    unfold startProcessing
    rw [hj]
    dsimp only
    rw [if_neg hne]
    dsimp only
    rw [findJob_applyAggregate]
    rw [findJob_ext (foldl_processItem_batchJobs procs opts now
      (selectEligible batchJobId s.queueItems)
      (ms, updateJob s batchJobId (fun j =>
        { j with status := Status.processing, started_at := some now }))) batchJobId]
    dsimp only
    rw [findJob_updateJob_processing, hj]
    unfold aggregateJobUpdate
    simp

/-- Witness for `timestamp_policy`: an aggregation run at time 7 keeps
a `started_at` already set to 5. -/
theorem timestamp_policy_witness :
    (aggregateJobUpdate { insertBatchJob 1 ("video_processing") 1 with started_at := some 5 }
        1 1 0 7).started_at = some 5 :=
  (timestamp_policy { insertBatchJob 1 ("video_processing") 1 with started_at := some 5 }
    1 1 0 7).1 5 rfl

end ClipCaption
